import Mathlib

/-!
Verification of the rpatchur control plane (src/rpatchur/src/{main,ui,process}.rs)
against its natural-language specification.

The Rust sources are shallowly embedded as executable Lean definitions:
* `process.rs` (Windows variant of `start_executable` together with
  `win32_spawn_process_open` / `win32_spawn_process_runas`) is modelled as a
  pure function from the current working directory, the executable path and
  the argument list to the `ShellExecuteExW` call it issues (verb, lpFile,
  lpParameters).
* `ui.rs` (`handle_message` and all its handlers) is modelled as a pure step
  function from an environment of external oracles (JSON parsing outcome,
  launch outcome, dialog choice, cache-file removal outcome, ...) and the
  mutex-guarded session state to the ordered list of observable effects, the
  successor state and a terminal outcome (handler returns vs process exit).
  `println!` debug output is not modelled; `log::error!` and `log::warn!`
  calls are modelled as `Effect.log` entries (`log::info!`/`log::trace!`
  calls carry no behavioural content and are elided).
* String operations are modelled on `String.data` (lists of characters);
  `str::to_lowercase` is modelled as a character-wise lowercase map (exact
  for the ASCII paths in scope).
-/

/-! ## Rust string primitives (character-list models) -/

/-- Model of Rust `str::to_lowercase`, as the character-wise lowercase map. -/
def rust_to_lowercase (s : String) : String :=
  ⟨s.data.map Char.toLower⟩

/-- Model of Rust `str::ends_with` on string patterns. -/
def rust_ends_with (s suffix : String) : Bool :=
  suffix.data.isSuffixOf s.data

/-- Model of Rust `str::contains` on a single-character pattern. -/
def rust_contains_char (s : String) (c : Char) : Bool :=
  s.data.contains c

/-! ## Windows path model (std::path behaviour used by process.rs)

`PathBuf::join`/`push` replaces the base entirely when the pushed component
is rooted (leading `\` or `/`) or carries a drive prefix (`C:`...).  The
drive-relative corner cases of Windows paths (`C:foo`, root-without-prefix
pushed onto a prefixed base) are collapsed into full replacement; the paths
the launcher is used with are either plain relative names or fully absolute
paths, for which this is exact. -/

/-- Second-character drive test (`C:`...). -/
def drive_snd : List Char → Bool
  | c2 :: _ => c2 == ':'
  | [] => false

/-- Replacement test on the character list of a path. -/
def win_replaces_data : List Char → Bool
  | [] => false
  | c :: rest => c == '\\' || c == '/' || drive_snd rest

/-- Does pushing this path onto a base replace the base (Windows rules)? -/
def win_path_replaces (p : String) : Bool :=
  win_replaces_data p.data

/-- Model of `std::env::current_dir()?.join(p)` given the working directory. -/
def win_join (cwd p : String) : String :=
  if win_path_replaces p then p else cwd ++ "\\" ++ p

/-! ## process.rs — the Windows process launcher -/

/-- The `lpVerb` passed to `ShellExecuteExW`. -/
inductive SpawnVerb where
  | openVerb
  | runas
deriving DecidableEq

/-- The observable content of one `ShellExecuteExW` invocation. -/
structure SpawnCall where
  verb : SpawnVerb
  file : String
  parameter : String
deriving DecidableEq

/-- Embedding of `windows::win32_spawn_process_open` (process.rs:85-136):
the non-elevated `"open"` verb; the literal `cmd.exe` (case-insensitive) is
passed through unresolved, every other path is joined onto the working
directory (both the with-separator and the without-separator branch join). -/
def win32_spawn_process_open (cwd path parameter : String) : SpawnCall :=
  let exe_path :=
    if rust_to_lowercase path = "cmd.exe" then path
    else if rust_contains_char path '\\' || rust_contains_char path '/' then
      win_join cwd path
    else
      win_join cwd path
  { verb := SpawnVerb.openVerb, file := exe_path, parameter := parameter }

/-- Embedding of `windows::win32_spawn_process_runas` (process.rs:140-193):
the elevation-requesting `"runas"` verb; same path resolution as the open
variant. -/
def win32_spawn_process_runas (cwd path parameter : String) : SpawnCall :=
  let exe_path :=
    if rust_to_lowercase path = "cmd.exe" || rust_contains_char path '\\' ||
        rust_contains_char path '/' then
      if rust_to_lowercase path = "cmd.exe" then path else win_join cwd path
    else
      win_join cwd path
  { verb := SpawnVerb.runas, file := exe_path, parameter := parameter }

/-- The batch-file test of `start_executable` (process.rs:15). -/
def is_batch_file (exe_path : String) : Bool :=
  rust_ends_with (rust_to_lowercase exe_path) ".bat" ||
    rust_ends_with (rust_to_lowercase exe_path) ".cmd"

/-- Embedding of the Windows `start_executable` (process.rs:7-41): batch
files are resolved against the working directory and started via the open
verb; everything else goes through the runas verb; in both branches the
arguments are folded into a single parameter string with `a + " " + b`. -/
def start_executable (cwd : String) (exe_path : String)
    (exe_arguments : List String) : SpawnCall :=
  if is_batch_file exe_path then
    let abs_bat_path := win_join cwd exe_path
    let exe_parameter :=
      exe_arguments.foldl (fun a b => a ++ " " ++ b) ""
    win32_spawn_process_open cwd abs_bat_path exe_parameter
  else
    let exe_parameter :=
      exe_arguments.foldl (fun a b => a ++ " " ++ b ++ "") ""
    win32_spawn_process_runas cwd exe_path exe_parameter

/-- The parameter string the fold in `start_executable` actually builds:
every argument is preceded by one space (note the leading space). -/
def lead_space_concat : List String → String
  | [] => ""
  | b :: bs => " " ++ b ++ lead_space_concat bs

/-- The spec's words for the parameter string: "the arguments concatenated
and separated by spaces". -/
def param_args_spec (args : List String) : String :=
  String.intercalate " " args

/-! ## JSON values (serde_json::Value) -/

/-- Model of `serde_json::Value`. -/
inductive Json where
  | null
  | bool (b : Bool)
  | num (n : Int)
  | str (s : String)
  | arr (xs : List Json)
  | obj (fields : List (String × Json))

/-- Object field lookup. -/
def jGet (j : Json) (key : String) : Option Json :=
  match j with
  | Json.obj fields => fields.lookup key
  | _ => none

/-- Model of `serde_json::Value`'s `Index` operator `json[key]`: `Null` when
the value is not an object or the key is missing. -/
def jIndex (j : Json) (key : String) : Json :=
  (jGet j key).getD Json.null

/-- Model of `Value::as_str`. -/
def jAsStr : Json → Option String
  | Json.str s => some s
  | _ => none

/-! ## patcher.rs interface (not under src/)

`PatcherCommand`, `PatcherConfiguration` and `get_patcher_name` live in
`patcher.rs`, which is not part of the sources; they are modelled from the
spec (sections 3 and 6) and from how `ui.rs`/`main.rs` consume them. -/

/-- Modelled from the spec: the Command variant of section 3,
{StartUpdate, CancelUpdate, ApplyPatch(file path), Quit} (`PatcherCommand`
is declared in the missing patcher.rs; its variants are fixed by the uses
in ui.rs and main.rs). -/
inductive PatcherCommand where
  | StartUpdate
  | CancelUpdate
  | ApplyPatch (path : String)
  | Quit
deriving DecidableEq

/-- Modelled from the spec: the `play`/`setup`/`repair` configuration
sections, each `{path, arguments, exit_on_success}` (section 6); declared in
the missing patcher.rs, field names fixed by the uses in ui.rs. -/
structure LaunchSection where
  path : String
  arguments : List String
  exit_on_success : Option Bool
deriving DecidableEq

/-- Modelled from the spec: the configuration snapshot (`PatcherConfiguration`
of the missing patcher.rs); only the sections the dispatcher reads are
modelled — `window`/`web` are consumed by the UI build, outside the
dispatcher. -/
structure PatcherConfiguration where
  play : LaunchSection
  setup : LaunchSection
  repair : Option LaunchSection
deriving DecidableEq

/-! ## ui.rs — session state, UI controller, dispatcher -/

/-- Embedding of `WebViewUserData` (ui.rs:63-67); the commands-channel
producer handle is not part of the state model (channel interaction is an
effect), leaving the configuration snapshot and the busy flag. -/
structure WebViewUserData where
  patcher_config : PatcherConfiguration
  patching_in_progress : Bool
deriving DecidableEq

/-- Embedding of `WebViewUserData::new` (ui.rs:70-79). -/
def WebViewUserData.new (patcher_config : PatcherConfiguration) :
    WebViewUserData :=
  { patcher_config := patcher_config, patching_in_progress := false }

/-- Embedding of `UiCommand` (ui.rs:17-19). -/
inductive UiCommand where
  | EvaluateScript (script : String)
deriving DecidableEq

/-- Embedding of `PatchingStatus` (ui.rs:55-61); `usize`/`u64` counters
become `Nat` (Rust's `{}` formatting of unsigned integers is decimal, which
`toString : Nat → String` matches). -/
inductive PatchingStatus where
  | Ready
  | Error (msg : String)
  | DownloadInProgress (nb_downloaded nb_total bytes_per_sec : Nat)
  | InstallationInProgress (nb_installed nb_total : Nat)
  | ManualPatchApplied (name : String)

/-- Embedding of `UiController::dispatch_patching_status` (ui.rs:30-49):
the list of `UiCommand`s sent on the UI-updates channel for one status. -/
def dispatch_patching_status (status : PatchingStatus) : List UiCommand :=
  let script :=
    match status with
    | PatchingStatus.Ready => "patchingStatusReady()"
    | PatchingStatus.Error msg => "patchingStatusError(\"" ++ msg ++ "\")"
    | PatchingStatus.DownloadInProgress nb_downloaded nb_total bytes_per_sec =>
      "patchingStatusDownloading(" ++ toString nb_downloaded ++ ", " ++
        toString nb_total ++ ", " ++ toString bytes_per_sec ++ ")"
    | PatchingStatus.InstallationInProgress nb_installed nb_total =>
      "patchingStatusInstalling(" ++ toString nb_installed ++ ", " ++
        toString nb_total ++ ")"
    | PatchingStatus.ManualPatchApplied name =>
      "patchingStatusPatchApplied(\"" ++ name ++ "\")"
  [UiCommand.EvaluateScript script]

/-- Embedding of `UiController::set_patch_in_progress` (ui.rs:51-52): the
body is empty — no UI command is emitted and nothing is written. -/
def set_patch_in_progress (_value : Bool) : List UiCommand := []

/-- Severity of a `log::` call (only `error` and `warn` carry behavioural
weight in the spec; `info`/`trace` calls are elided). -/
inductive LogLevel where
  | error
  | warn
deriving DecidableEq

/-- One observable effect of a dispatcher handler. -/
inductive Effect where
  | submit (c : PatcherCommand)
  | launch (path : String) (args : List String)
  | openUrl (url : String)
  | removeFile (path : String)
  | log (lvl : LogLevel)
deriving DecidableEq

/-- How a `handle_message` invocation ends: the handler returns control to
the caller, or the handler calls `std::process::exit(code)`. -/
inductive Outcome where
  | returns
  | exits (code : Int)
deriving DecidableEq

/-- The result of one dispatch: effects in program order, the session state
afterwards, and whether control returned or the process exited. -/
structure StepResult where
  effects : List Effect
  state : WebViewUserData
  outcome : Outcome
deriving DecidableEq

/-- Outcome of `open::that` (ui.rs:387): the child's exit status. -/
structure OpenStatus where
  success : Bool
  code : Option Int
deriving DecidableEq

/-- External oracles the dispatcher interacts with: serde's parse of a
message, `start_executable`'s outcome, the file-dialog choice, the cache
removal outcome, `get_patcher_name` (missing patcher.rs, modelled from the
spec as producing the launcher identity), and `open::that`. -/
structure Env where
  parse : String → Except String Json
  launch : String → List String → Except String Bool
  dialog : Option String
  patcherName : Except String String
  removeOk : Bool
  openResult : String → Except String OpenStatus

/-- Embedding of `start_game_client` (ui.rs:402-424): launch the configured
client path with the given arguments; on accepted launch, exit when
`play.exit_on_success` (default `true`) is set; launch machinery errors log
a warning and return. -/
def start_game_client (env : Env) (s : WebViewUserData)
    (client_arguments : List String) : StepResult :=
  match env.launch s.patcher_config.play.path client_arguments with
  | Except.ok success =>
    if success then
      if s.patcher_config.play.exit_on_success.getD true then
        { effects := [Effect.launch s.patcher_config.play.path
            client_arguments],
          state := s, outcome := Outcome.exits 0 }
      else
        { effects := [Effect.launch s.patcher_config.play.path
            client_arguments],
          state := s, outcome := Outcome.returns }
    else
      { effects := [Effect.launch s.patcher_config.play.path
          client_arguments],
        state := s, outcome := Outcome.returns }
  | Except.error _ =>
    { effects := [Effect.launch s.patcher_config.play.path client_arguments,
                  Effect.log LogLevel.warn],
      state := s, outcome := Outcome.returns }

/-- Embedding of `handle_play` (ui.rs:169-178). -/
def handle_play (env : Env) (s : WebViewUserData) : StepResult :=
  start_game_client env s s.patcher_config.play.arguments

/-- Embedding of `handle_setup` (ui.rs:180-203): same pattern as the play
path with the `setup` section and `exit_on_success` defaulting to `false`. -/
def handle_setup (env : Env) (s : WebViewUserData) : StepResult :=
  match env.launch s.patcher_config.setup.path
      s.patcher_config.setup.arguments with
  | Except.ok success =>
    if success then
      if s.patcher_config.setup.exit_on_success.getD false then
        { effects := [Effect.launch s.patcher_config.setup.path
            s.patcher_config.setup.arguments],
          state := s, outcome := Outcome.exits 0 }
      else
        { effects := [Effect.launch s.patcher_config.setup.path
            s.patcher_config.setup.arguments],
          state := s, outcome := Outcome.returns }
    else
      { effects := [Effect.launch s.patcher_config.setup.path
          s.patcher_config.setup.arguments],
        state := s, outcome := Outcome.returns }
  | Except.error _ =>
    { effects := [Effect.launch s.patcher_config.setup.path
        s.patcher_config.setup.arguments,
                  Effect.log LogLevel.warn],
      state := s, outcome := Outcome.returns }

/-- Embedding of `handle_repair` (ui.rs:206-273): a missing `repair` section
logs errors and performs no action; otherwise same pattern as setup (an
OS-rejected launch additionally logs a warning, a launch error logs two
errors). -/
def handle_repair (env : Env) (s : WebViewUserData) : StepResult :=
  match s.patcher_config.repair with
  | none =>
    { effects := [Effect.log LogLevel.error, Effect.log LogLevel.error],
      state := s, outcome := Outcome.returns }
  | some repair =>
    match env.launch repair.path repair.arguments with
    | Except.ok success =>
      if success then
        if repair.exit_on_success.getD false then
          { effects := [Effect.launch repair.path repair.arguments],
            state := s, outcome := Outcome.exits 0 }
        else
          { effects := [Effect.launch repair.path repair.arguments],
            state := s, outcome := Outcome.returns }
      else
        { effects := [Effect.launch repair.path repair.arguments,
                      Effect.log LogLevel.warn],
          state := s, outcome := Outcome.returns }
    | Except.error _ =>
      { effects := [Effect.launch repair.path repair.arguments,
                    Effect.log LogLevel.error, Effect.log LogLevel.error],
        state := s, outcome := Outcome.returns }

/-- Embedding of `handle_start_update` (ui.rs:275-286): under the session
lock, a set busy flag logs a warning and no-ops; otherwise `StartUpdate` is
sent. The flag is read, never written. -/
def handle_start_update (s : WebViewUserData) : StepResult :=
  if s.patching_in_progress then
    { effects := [Effect.log LogLevel.warn], state := s,
      outcome := Outcome.returns }
  else
    { effects := [Effect.submit PatcherCommand.StartUpdate], state := s,
      outcome := Outcome.returns }

/-- Embedding of `handle_cancel_update` (ui.rs:288-297): `CancelUpdate` is
sent unconditionally. -/
def handle_cancel_update (s : WebViewUserData) : StepResult :=
  { effects := [Effect.submit PatcherCommand.CancelUpdate], state := s,
    outcome := Outcome.returns }

/-- Helper for the file-stem model: drop the last `'.'` of the list and
everything after it; a list with no `'.'` is returned unchanged. -/
def dropAfterLastDot (l : List Char) : List Char :=
  match l.reverse.dropWhile (fun c => c ≠ '.') with
  | [] => l
  | _ :: restRev => restRev.reverse

/-- Model of `Path::file_stem` for single-component file names: the portion
before the last `'.'`; a leading `'.'` does not begin an extension. -/
def rust_file_stem_data : List Char → List Char
  | [] => []
  | c :: rest => c :: dropAfterLastDot rest

/-- Model of `PathBuf::from(name).with_extension("dat")` (ui.rs:301) for
nonempty single-component file names: the file stem with `.dat` appended. -/
def rust_with_extension_dat (s : String) : String :=
  String.mk (rust_file_stem_data s.data) ++ ".dat"

/-- Embedding of `handle_reset_cache` (ui.rs:299-306): when the launcher
identity is available, attempt to remove `<identity>.dat` (relative path,
so in the working directory); a removal error only logs a warning — the
handler always returns. -/
def handle_reset_cache (env : Env) (s : WebViewUserData) : StepResult :=
  match env.patcherName with
  | Except.ok patcher_name =>
    if env.removeOk then
      { effects := [Effect.removeFile (rust_with_extension_dat patcher_name)],
        state := s, outcome := Outcome.returns }
    else
      { effects := [Effect.removeFile (rust_with_extension_dat patcher_name),
                    Effect.log LogLevel.warn],
        state := s, outcome := Outcome.returns }
  | Except.error _ =>
    { effects := [], state := s, outcome := Outcome.returns }

/-- Embedding of `handle_manual_patch` (ui.rs:308-330): same busy guard as
`handle_start_update`; then an external file dialog; a chosen path is sent
as `ApplyPatch`. -/
def handle_manual_patch (env : Env) (s : WebViewUserData) : StepResult :=
  if s.patching_in_progress then
    { effects := [Effect.log LogLevel.warn], state := s,
      outcome := Outcome.returns }
  else
    match env.dialog with
    | some path =>
      { effects := [Effect.submit (PatcherCommand.ApplyPatch path)],
        state := s, outcome := Outcome.returns }
    | none =>
      { effects := [], state := s, outcome := Outcome.returns }

/-- The typed parameters of the `login` function (ui.rs:354-358). -/
structure LoginParameters where
  login : String
  password : String
deriving DecidableEq

/-- Model of `serde_json::from_value::<LoginParameters>`: requires an object
with string fields `login` and `password`. -/
def parseLoginParameters (v : Json) : Except String LoginParameters :=
  match v with
  | Json.obj _ =>
    match jGet v "login", jGet v "password" with
    | some (Json.str l), some (Json.str p) =>
      Except.ok { login := l, password := p }
    | _, _ => Except.error "missing field"
  | _ => Except.error "invalid type"

/-- The typed parameters of the `open_url` function (ui.rs:378-381). -/
structure OpenUrlParameters where
  url : String
deriving DecidableEq

/-- Model of `serde_json::from_value::<OpenUrlParameters>`. -/
def parseOpenUrlParameters (v : Json) : Except String OpenUrlParameters :=
  match v with
  | Json.obj _ =>
    match jGet v "url" with
    | some (Json.str u) => Except.ok { url := u }
    | _ => Except.error "missing field"
  | _ => Except.error "invalid type"

/-- Embedding of `handle_login` (ui.rs:360-376): invalid parameters log an
error and drop; otherwise run the play flow with
`["-t:" ++ password, login, "server"] ++ play.arguments`. -/
def handle_login (env : Env) (s : WebViewUserData) (parameters : Json) :
    StepResult :=
  match parseLoginParameters parameters with
  | Except.error _ =>
    { effects := [Effect.log LogLevel.error], state := s,
      outcome := Outcome.returns }
  | Except.ok login_params =>
    start_game_client env s
      (["-t:" ++ login_params.password, login_params.login, "server"] ++
        s.patcher_config.play.arguments)

/-- Embedding of `handle_open_url` (ui.rs:383-400): invalid parameters log
an error; otherwise delegate to the OS opener, logging a non-zero exit code
(when present) or an opener failure. -/
def handle_open_url (env : Env) (s : WebViewUserData) (parameters : Json) :
    StepResult :=
  match parseOpenUrlParameters parameters with
  | Except.error _ =>
    { effects := [Effect.log LogLevel.error], state := s,
      outcome := Outcome.returns }
  | Except.ok params =>
    match env.openResult params.url with
    | Except.ok exit_status =>
      if exit_status.success then
        { effects := [Effect.openUrl params.url], state := s,
          outcome := Outcome.returns }
      else
        match exit_status.code with
        | some _ =>
          { effects := [Effect.openUrl params.url, Effect.log LogLevel.error],
            state := s, outcome := Outcome.returns }
        | none =>
          { effects := [Effect.openUrl params.url], state := s,
            outcome := Outcome.returns }
    | Except.error _ =>
      { effects := [Effect.openUrl params.url, Effect.log LogLevel.error],
        state := s, outcome := Outcome.returns }

/-- Embedding of `handle_json_request` (ui.rs:332-352): a parse failure logs
an error; a parsed object with a string `function` field is routed to the
registry (`login`, `open_url`) with `json["parameters"]`; an unknown name
logs an error; a missing/non-string `function` field returns silently. -/
def handle_json_request (env : Env) (s : WebViewUserData) (request : String) :
    StepResult :=
  match env.parse request with
  | Except.error _ =>
    { effects := [Effect.log LogLevel.error], state := s,
      outcome := Outcome.returns }
  | Except.ok json_req =>
    match jAsStr (jIndex json_req "function") with
    | some function_name =>
      if function_name = "login" then
        handle_login env s (jIndex json_req "parameters")
      else if function_name = "open_url" then
        handle_open_url env s (jIndex json_req "parameters")
      else
        { effects := [Effect.log LogLevel.error], state := s,
          outcome := Outcome.returns }
    | none =>
      { effects := [], state := s, outcome := Outcome.returns }

/-- The eight fixed message tokens of `handle_message` (ui.rs:129-161). -/
def fixedTokens : List String :=
  ["play", "setup", "repair", "exit", "start_update", "cancel_update",
   "reset_cache", "manual_patch"]

/-- Embedding of `handle_message` (ui.rs:124-167): exact match against the
fixed vocabulary (the `exit` arm calls `std::process::exit(0)`), anything
else goes to the JSON dispatcher. -/
def handle_message (env : Env) (message : String) (s : WebViewUserData) :
    StepResult :=
  if message = "play" then handle_play env s
  else if message = "setup" then handle_setup env s
  else if message = "repair" then handle_repair env s
  else if message = "exit" then
    { effects := [], state := s, outcome := Outcome.exits 0 }
  else if message = "start_update" then handle_start_update s
  else if message = "cancel_update" then handle_cancel_update s
  else if message = "reset_cache" then handle_reset_cache env s
  else if message = "manual_patch" then handle_manual_patch env s
  else handle_json_request env s message

/-- Number of occurrences of one effect in an effect trace. -/
def countEffect (effects : List Effect) (e : Effect) : Nat :=
  (effects.filter (fun x => decide (x = e))).length

/-! ## Concrete fixtures used by witnesses and counterexamples -/

/-- A play section: `client.exe` with arguments `["-w"]`, default
`exit_on_success`. -/
def playSection : LaunchSection :=
  { path := "client.exe", arguments := ["-w"], exit_on_success := none }

/-- A setup section. -/
def setupSection : LaunchSection :=
  { path := "setup.exe", arguments := [], exit_on_success := none }

/-- A configuration fixture. -/
def cfgEx : PatcherConfiguration :=
  { play := playSection, setup := setupSection, repair := none }

/-- The session state right after startup. -/
def stateEx : WebViewUserData := WebViewUserData.new cfgEx

/-- A session state whose busy flag is set. -/
def busyStateEx : WebViewUserData :=
  { patcher_config := cfgEx, patching_in_progress := true }

/-- Baseline environment: every message fails to parse, every launch is
rejected by the OS, no dialog choice, identity `rpatchur`, cache removal
fails (file not found), URL opening fails. -/
def envBase : Env :=
  { parse := fun _ => Except.error "invalid",
    launch := fun _ _ => Except.ok false,
    dialog := none,
    patcherName := Except.ok "rpatchur",
    removeOk := false,
    openResult := fun _ => Except.error "fail" }

/-- Environment in which the OS accepts every launch request. -/
def envLaunchOk : Env :=
  { envBase with launch := fun _ _ => Except.ok true }

/-- The JSON value of a well-formed `login` message. -/
def loginJson : Json :=
  Json.obj [("function", Json.str "login"),
            ("parameters", Json.obj [("login", Json.str "alice"),
                                     ("password", Json.str "secret")])]

/-- The text of a well-formed `login` message. -/
def loginMsg : String :=
  "\x7b\"function\":\"login\",\"parameters\":\x7b\"login\":\"alice\",\"password\":\"secret\"\x7d\x7d"

/-- Environment in which the `login` message parses to `loginJson` and the
OS accepts launches. -/
def envLogin : Env :=
  { envLaunchOk with
    parse := fun m => if m = loginMsg then Except.ok loginJson
                      else Except.error "invalid" }

/-- The JSON value of a message naming an unknown function. -/
def unknownFnJson : Json :=
  Json.obj [("function", Json.str "frobnicate")]

/-- Environment in which one message parses to `unknownFnJson`. -/
def envUnknownFn : Env :=
  { envBase with
    parse := fun m => if m = "\x7b\"function\":\"frobnicate\"\x7d" then
                        Except.ok unknownFnJson
                      else Except.error "invalid" }

/-- The JSON value of a message whose `function` field is not a string. -/
def numFnJson : Json := Json.obj [("function", Json.num 3)]

/-- Environment in which one message parses to `numFnJson`. -/
def envNumFn : Env :=
  { envBase with
    parse := fun m => if m = "\x7b\"function\":3\x7d" then Except.ok numFnJson
                      else Except.error "invalid" }

/-! ## Helper lemmas -/

/-- The left fold `a + " " + b` over the arguments prepends one space to
each argument. -/
theorem foldl_space_eq (args : List String) (acc : String) :
    args.foldl (fun a b => a ++ " " ++ b) acc = acc ++ lead_space_concat args := by
  induction args generalizing acc with
  | nil => simp [lead_space_concat, String.append_empty]
  | cons a as ih =>
    rw [List.foldl_cons, ih]
    simp only [lead_space_concat, String.append_assoc]

/-- Same for the fold `a + " " + b + ""` of the runas branch. -/
theorem foldl_space_eq2 (args : List String) (acc : String) :
    args.foldl (fun a b => a ++ " " ++ b ++ "") acc =
      acc ++ lead_space_concat args := by
  induction args generalizing acc with
  | nil => simp [lead_space_concat, String.append_empty]
  | cons a as ih =>
    rw [List.foldl_cons, ih]
    simp only [lead_space_concat, String.append_assoc, String.append_empty]

/-- Replacement is decided by the first two characters, so it is stable
under appending on the right. -/
theorem replaces_append (a b : String) (h : win_path_replaces a = true) :
    win_path_replaces (a ++ b) = true := by
  unfold win_path_replaces at h ⊢
  rw [String.data_append]
  cases ha : a.data with
  | nil => rw [ha] at h; simp [win_replaces_data] at h
  | cons c rest =>
    rw [ha] at h
    rw [List.cons_append]
    simp only [win_replaces_data, Bool.or_eq_true] at h ⊢
    rcases h with h | h
    · exact Or.inl h
    · cases rest with
      | nil => simp [drive_snd] at h
      | cons c2 rest2 =>
        refine Or.inr ?_
        simpa [drive_snd] using h

/-- Joining onto an absolute working directory yields a replacing
(absolute) path. -/
theorem replaces_win_join (cwd p : String)
    (hcwd : win_path_replaces cwd = true) :
    win_path_replaces (win_join cwd p) = true := by
  unfold win_join
  split
  · assumption
  · exact replaces_append _ _ (replaces_append _ _ hcwd)

/-- Joining a replacing (absolute) path is the identity. -/
theorem win_join_of_replaces (cwd p : String)
    (h : win_path_replaces p = true) : win_join cwd p = p := by
  simp [win_join, h]

/-- A lowercased string containing a backslash is not `"cmd.exe"`. -/
theorem lower_append_backslash_ne (x y : String) :
    rust_to_lowercase (x ++ "\\" ++ y) ≠ "cmd.exe" := by
  intro h
  have hmem : '\\' ∈ (x ++ "\\" ++ y).data := by
    rw [String.data_append, String.data_append]
    refine List.mem_append_left _ (List.mem_append_right _ ?_)
    decide
  have hmem2 : '\\' ∈ (rust_to_lowercase (x ++ "\\" ++ y)).data := by
    unfold rust_to_lowercase
    exact List.mem_map_of_mem Char.toLower hmem
  rw [h] at hmem2
  exact absurd hmem2 (by decide)

/-- A path whose lowercase form ends in `".bat"` or `".cmd"` does not
lowercase to `"cmd.exe"`. -/
theorem batch_lower_ne_cmd (p : String) (h : is_batch_file p = true) :
    rust_to_lowercase p ≠ "cmd.exe" := by
  intro he
  unfold is_batch_file at h
  rw [he] at h
  exact absurd h (by decide)

/-- The file actually passed to the open verb for a batch path: the
resolution in `start_executable` followed by the re-resolution inside
`win32_spawn_process_open` is exactly one join onto the working directory. -/
theorem open_file_of_batch (cwd path param : String)
    (hcwd : win_path_replaces cwd = true) (hb : is_batch_file path = true) :
    win32_spawn_process_open cwd (win_join cwd path) param =
      { verb := SpawnVerb.openVerb, file := win_join cwd path,
        parameter := param } := by
  have hne : rust_to_lowercase (win_join cwd path) ≠ "cmd.exe" := by
    unfold win_join
    split
    · exact batch_lower_ne_cmd path hb
    · exact lower_append_backslash_ne cwd path
  have hrep : win_path_replaces (win_join cwd path) = true :=
    replaces_win_join cwd path hcwd
  unfold win32_spawn_process_open
  rw [if_neg hne]
  cases hc : (rust_contains_char (win_join cwd path) '\\' ||
      rust_contains_char (win_join cwd path) '/') with
  | true =>
    simp only [hc, if_true, win_join_of_replaces cwd _ hrep, ite_self]
  | false =>
    simp only [hc, if_false, win_join_of_replaces cwd _ hrep, ite_self]

/-! ## Claim theorems -/

/-- C3: on the Windows target, a path ending in `.bat`/`.cmd`
(case-insensitive) is started via the non-elevated open verb with the path
resolved to an absolute path against the working directory; any other path
is started via the elevation-requesting runas verb with the same absolute
resolution; and the literal `cmd.exe` is passed through unresolved in both
verb paths (and reaches the runas verb unresolved via `start_executable`). -/
theorem start_executable_elevation_selection (cwd path param : String)
    (args : List String) (hcwd : win_path_replaces cwd = true) :
    (is_batch_file path = true →
      (start_executable cwd path args).verb = SpawnVerb.openVerb ∧
      (start_executable cwd path args).file = win_join cwd path ∧
      win_path_replaces (start_executable cwd path args).file = true) ∧
    (is_batch_file path = false → rust_to_lowercase path ≠ "cmd.exe" →
      (start_executable cwd path args).verb = SpawnVerb.runas ∧
      (start_executable cwd path args).file = win_join cwd path ∧
      win_path_replaces (start_executable cwd path args).file = true) ∧
    (rust_to_lowercase path = "cmd.exe" →
      (win32_spawn_process_open cwd path param).verb = SpawnVerb.openVerb ∧
      (win32_spawn_process_open cwd path param).file = path ∧
      (win32_spawn_process_runas cwd path param).verb = SpawnVerb.runas ∧
      (win32_spawn_process_runas cwd path param).file = path ∧
      (start_executable cwd path args).verb = SpawnVerb.runas ∧
      (start_executable cwd path args).file = path) := by
  refine ⟨?_, ?_, ?_⟩
  · intro hb
    unfold start_executable
    rw [if_pos hb,
      open_file_of_batch cwd path
        (args.foldl (fun a b => a ++ " " ++ b) "") hcwd hb]
    exact ⟨rfl, rfl, replaces_win_join cwd path hcwd⟩
  · intro hb hne
    unfold start_executable
    rw [if_neg (by simp [hb])]
    unfold win32_spawn_process_runas
    refine ⟨rfl, ?_, ?_⟩
    · simp [hne]
    · simp only [hne]
      simp only [decide_False, Bool.false_or, if_false, ite_self]
      exact replaces_win_join cwd path hcwd
  · intro hcmd
    have hb : is_batch_file path = false := by
      unfold is_batch_file
      unfold rust_ends_with
      rw [hcmd]
      decide
    have hopen : (win32_spawn_process_open cwd path param).file = path := by
      unfold win32_spawn_process_open
      simp [hcmd]
    have hrunas : (win32_spawn_process_runas cwd path param).file = path := by
      unfold win32_spawn_process_runas
      simp [hcmd]
    refine ⟨rfl, hopen, rfl, hrunas, ?_, ?_⟩
    · unfold start_executable
      rw [if_neg (by simp [hb])]
      rfl
    · unfold start_executable
      rw [if_neg (by simp [hb])]
      unfold win32_spawn_process_runas
      simp [hcmd]





/-- Witness for C3: concrete launches from `C:\dir` — `tool.bat` via the
open verb resolved, `tool.exe` via runas resolved, `cmd.exe` unresolved. -/
theorem start_executable_elevation_selection_witness :
    win_path_replaces "C:\\dir" = true ∧
    start_executable "C:\\dir" "tool.bat" ["a"] =
      { verb := SpawnVerb.openVerb, file := "C:\\dir\\tool.bat",
        parameter := " a" } ∧
    start_executable "C:\\dir" "tool.exe" ["a"] =
      { verb := SpawnVerb.runas, file := "C:\\dir\\tool.exe",
        parameter := " a" } ∧
    (win32_spawn_process_open "C:\\dir" "cmd.exe" " a").file = "cmd.exe" ∧
    (win32_spawn_process_runas "C:\\dir" "cmd.exe" " a").file = "cmd.exe" ∧
    (start_executable "C:\\dir" "cmd.exe" ["a"]).file = "cmd.exe" := by
  have h1 := start_executable_elevation_selection "C:\\dir" "tool.bat" " a"
    ["a"] (by decide)
  have h2 := start_executable_elevation_selection "C:\\dir" "tool.exe" " a"
    ["a"] (by decide)
  have h3 := start_executable_elevation_selection "C:\\dir" "cmd.exe" " a"
    ["a"] (by decide)
  obtain ⟨hb1, -, -⟩ := h1
  obtain ⟨-, hn2, -⟩ := h2
  obtain ⟨-, -, hc3⟩ := h3
  obtain ⟨hv1, hf1, -⟩ := hb1 (by decide)
  obtain ⟨hv2, hf2, -⟩ := hn2 (by decide) (by decide)
  obtain ⟨-, ho3, -, hr3, -, hs3⟩ := hc3 (by decide)
  refine ⟨by decide, ?_, ?_, ho3, hr3, hs3⟩
  · have hp1 : (start_executable "C:\\dir" "tool.bat" ["a"]).parameter =
        " a" := by decide
    have : win_join "C:\\dir" "tool.bat" = "C:\\dir\\tool.bat" := by decide
    rw [this] at hf1
    cases he : start_executable "C:\\dir" "tool.bat" ["a"]
    rw [he] at hv1 hf1 hp1
    simp only at hv1 hf1 hp1
    rw [hv1, hf1, hp1]
  · have hp2 : (start_executable "C:\\dir" "tool.exe" ["a"]).parameter =
        " a" := by decide
    have : win_join "C:\\dir" "tool.exe" = "C:\\dir\\tool.exe" := by decide
    rw [this] at hf2
    cases he : start_executable "C:\\dir" "tool.exe" ["a"]
    rw [he] at hv2 hf2 hp2
    simp only at hv2 hf2 hp2
    rw [hv2, hf2, hp2]

/-- C4 counterexample: the parameter string for the single argument `"x"`
is `" x"` (a leading space), not the space-separated concatenation `"x"`. -/
theorem start_executable_parameter_counterexample :
    (start_executable "C:\\dir" "tool.exe" ["x"]).parameter ≠
      param_args_spec ["x"] ∧
    (start_executable "C:\\dir" "tool.exe" ["x"]).parameter = " x" := by
  decide

/-- C4 amended: on the Windows target the single parameter string passed to
`ShellExecuteExW` is the concatenation of the arguments each preceded by
one space — i.e. a leading space followed by the arguments separated by
spaces (argument boundaries are lost for arguments containing embedded
spaces). -/
theorem start_executable_parameter (cwd path : String)
    (args : List String) :
    (start_executable cwd path args).parameter = lead_space_concat args := by
  unfold start_executable
  split
  · show (win32_spawn_process_open _ _ _).parameter = _
    unfold win32_spawn_process_open
    show args.foldl (fun a b => a ++ " " ++ b) "" = _
    rw [foldl_space_eq]
    exact String.empty_append _
  · show (win32_spawn_process_runas _ _ _).parameter = _
    unfold win32_spawn_process_runas
    show args.foldl (fun a b => a ++ " " ++ b ++ "") "" = _
    rw [foldl_space_eq2]
    exact String.empty_append _

/-- C7: every `PatchingStatus` value produces exactly one `EvaluateScript`
UI update, whose text is the fixed script-call expression of the variant
with the fields interpolated positionally, and payload text is embedded
without escaping — every character of an Error message (quotes and
newlines included) appears verbatim in the generated expression. -/
theorem dispatch_patching_status_scripts :
    (∀ status, (dispatch_patching_status status).length = 1) ∧
    dispatch_patching_status PatchingStatus.Ready =
      [UiCommand.EvaluateScript "patchingStatusReady()"] ∧
    (∀ msg, dispatch_patching_status (PatchingStatus.Error msg) =
      [UiCommand.EvaluateScript
        ("patchingStatusError(\"" ++ msg ++ "\")")]) ∧
    (∀ d t r,
      dispatch_patching_status (PatchingStatus.DownloadInProgress d t r) =
        [UiCommand.EvaluateScript
          ("patchingStatusDownloading(" ++ toString d ++ ", " ++
            toString t ++ ", " ++ toString r ++ ")")]) ∧
    (∀ d t,
      dispatch_patching_status (PatchingStatus.InstallationInProgress d t) =
        [UiCommand.EvaluateScript
          ("patchingStatusInstalling(" ++ toString d ++ ", " ++
            toString t ++ ")")]) ∧
    (∀ name,
      dispatch_patching_status (PatchingStatus.ManualPatchApplied name) =
        [UiCommand.EvaluateScript
          ("patchingStatusPatchApplied(\"" ++ name ++ "\")")]) ∧
    (∀ msg c, c ∈ msg.data →
      c ∈ ("patchingStatusError(\"" ++ msg ++ "\")").data) := by
  refine ⟨?_, rfl, fun _ => rfl, fun _ _ _ => rfl, fun _ _ => rfl,
    fun _ => rfl, ?_⟩
  · intro status
    cases status <;> rfl
  · intro msg c hc
    rw [String.data_append, String.data_append]
    exact List.mem_append_left _ (List.mem_append_right _ hc)

/-- Witness for C7: the quote character inside the Error message
`a"b` appears verbatim in the generated expression. -/
theorem dispatch_patching_status_scripts_witness :
    '"' ∈ ("a\"b" : String).data ∧
    '"' ∈ ("patchingStatusError(\"" ++ "a\"b" ++ "\")").data := by
  refine ⟨by decide, ?_⟩
  exact dispatch_patching_status_scripts.2.2.2.2.2.2 "a\"b" '"' (by decide)

/-- `start_game_client` never writes the session state. -/
theorem start_game_client_state (env : Env) (s : WebViewUserData)
    (a : List String) : (start_game_client env s a).state = s := by
  unfold start_game_client
  split <;> try rfl
  all_goals split <;> try rfl
  all_goals split <;> rfl

/-- `handle_setup` never writes the session state. -/
theorem handle_setup_state (env : Env) (s : WebViewUserData) :
    (handle_setup env s).state = s := by
  unfold handle_setup
  split <;> try rfl
  all_goals split <;> try rfl
  all_goals split <;> rfl

/-- `handle_repair` never writes the session state. -/
theorem handle_repair_state (env : Env) (s : WebViewUserData) :
    (handle_repair env s).state = s := by
  unfold handle_repair
  split <;> try rfl
  all_goals split <;> try rfl
  all_goals split <;> try rfl
  all_goals split <;> rfl

/-- `handle_reset_cache` never writes the session state. -/
theorem handle_reset_cache_state (env : Env) (s : WebViewUserData) :
    (handle_reset_cache env s).state = s := by
  unfold handle_reset_cache
  split <;> try rfl
  all_goals split <;> rfl

/-- `handle_manual_patch` never writes the session state. -/
theorem handle_manual_patch_state (env : Env) (s : WebViewUserData) :
    (handle_manual_patch env s).state = s := by
  unfold handle_manual_patch
  split <;> try rfl
  all_goals split <;> rfl

/-- `handle_login` never writes the session state. -/
theorem handle_login_state (env : Env) (s : WebViewUserData) (p : Json) :
    (handle_login env s p).state = s := by
  unfold handle_login
  split
  · rfl
  · exact start_game_client_state env s _

/-- `handle_open_url` never writes the session state. -/
theorem handle_open_url_state (env : Env) (s : WebViewUserData) (p : Json) :
    (handle_open_url env s p).state = s := by
  unfold handle_open_url
  split <;> try rfl
  all_goals split <;> try rfl
  all_goals split <;> try rfl
  all_goals split <;> rfl

/-- `handle_json_request` never writes the session state. -/
theorem handle_json_request_state (env : Env) (s : WebViewUserData)
    (request : String) : (handle_json_request env s request).state = s := by
  unfold handle_json_request
  split
  · rfl
  · split
    · split
      · exact handle_login_state env s _
      · split
        · exact handle_open_url_state env s _
        · rfl
    · rfl

/-- No dispatcher step writes the session state. -/
theorem handle_message_state (env : Env) (msg : String)
    (s : WebViewUserData) : (handle_message env msg s).state = s := by
  unfold handle_message
  split
  · exact start_game_client_state env s _
  split
  · exact handle_setup_state env s
  split
  · exact handle_repair_state env s
  split
  · rfl
  split
  · unfold handle_start_update; split <;> rfl
  split
  · rfl
  split
  · exact handle_reset_cache_state env s
  split
  · exact handle_manual_patch_state env s
  exact handle_json_request_state env s msg

/-- C9: the busy flag `patching_in_progress` is initialized to `false` and
never written: `set_patch_in_progress` emits nothing and writes nothing,
and every dispatcher step leaves the whole session state (the flag
included) unchanged — so `patching_in_progress = false` is preserved by
every reachable step. -/
theorem patching_in_progress_never_written (cfg : PatcherConfiguration)
    (env : Env) (msg : String) (s : WebViewUserData) (v : Bool) :
    (WebViewUserData.new cfg).patching_in_progress = false ∧
    set_patch_in_progress v = [] ∧
    (handle_message env msg s).state = s ∧
    (handle_message env msg s).state.patching_in_progress =
      s.patching_in_progress := by
  refine ⟨rfl, rfl, handle_message_state env msg s, ?_⟩
  rw [handle_message_state env msg s]

/-- C1 counterexample: from the initial (not busy) state, two consecutive
`start_update` dispatches with no intervening completion event submit
`StartUpdate` twice, not exactly once. -/
theorem start_update_twice_counterexample :
    countEffect ((handle_message envBase "start_update" stateEx).effects ++
        (handle_message envBase "start_update"
          (handle_message envBase "start_update" stateEx).state).effects)
      (Effect.submit PatcherCommand.StartUpdate) ≠ 1 ∧
    countEffect ((handle_message envBase "start_update" stateEx).effects ++
        (handle_message envBase "start_update"
          (handle_message envBase "start_update" stateEx).state).effects)
      (Effect.submit PatcherCommand.StartUpdate) = 2 := by
  decide

/-- C1 amended: the dispatcher tests the busy flag under the session lock
but never sets it (`set_patch_in_progress` is a no-op), so from a non-busy
state two consecutive `start_update` dispatches each submit `StartUpdate` —
two submissions, not one; from a busy state a dispatch is a logged no-op
submitting nothing. -/
theorem start_update_busy_guard (env : Env) (s s2 : WebViewUserData)
    (h : s.patching_in_progress = false)
    (h2 : s2.patching_in_progress = true) :
    countEffect ((handle_message env "start_update" s).effects ++
        (handle_message env "start_update"
          (handle_message env "start_update" s).state).effects)
      (Effect.submit PatcherCommand.StartUpdate) = 2 ∧
    (handle_message env "start_update" s2).effects =
      [Effect.log LogLevel.warn] := by
  have hm : ∀ t : WebViewUserData,
      handle_message env "start_update" t = handle_start_update t :=
    fun t => rfl
  constructor
  · simp only [hm]
    unfold handle_start_update
    rw [if_neg (by rw [h]; exact Bool.false_ne_true)]
    simp only
    rw [if_neg (by rw [h]; exact Bool.false_ne_true)]
    rfl
  · rw [hm]
    unfold handle_start_update
    rw [if_pos (by rw [h2])]

/-- Witness for C1 amended: the two dispatches from the startup state, and
one dispatch from a busy state. -/
theorem start_update_busy_guard_witness :
    stateEx.patching_in_progress = false ∧
    busyStateEx.patching_in_progress = true ∧
    countEffect ((handle_message envBase "start_update" stateEx).effects ++
        (handle_message envBase "start_update"
          (handle_message envBase "start_update" stateEx).state).effects)
      (Effect.submit PatcherCommand.StartUpdate) = 2 ∧
    (handle_message envBase "start_update" busyStateEx).effects =
      [Effect.log LogLevel.warn] := by
  refine ⟨rfl, rfl, ?_⟩
  exact start_update_busy_guard envBase stateEx busyStateEx rfl rfl

/-- When no launch is accepted by the OS, `start_game_client` returns. -/
theorem start_game_client_returns (env : Env) (s : WebViewUserData)
    (a : List String) (hL : ∀ p q, env.launch p q ≠ Except.ok true) :
    (start_game_client env s a).outcome = Outcome.returns := by
  unfold start_game_client
  split
  case h_1 success heq =>
    cases success with
    | true => exact absurd heq (hL _ _)
    | false => rfl
  case h_2 => rfl

/-- When no launch is accepted by the OS, `handle_setup` returns. -/
theorem handle_setup_returns (env : Env) (s : WebViewUserData)
    (hL : ∀ p q, env.launch p q ≠ Except.ok true) :
    (handle_setup env s).outcome = Outcome.returns := by
  unfold handle_setup
  split
  case h_1 success heq =>
    cases success with
    | true => exact absurd heq (hL _ _)
    | false => rfl
  case h_2 => rfl

/-- When no launch is accepted by the OS, `handle_repair` returns. -/
theorem handle_repair_returns (env : Env) (s : WebViewUserData)
    (hL : ∀ p q, env.launch p q ≠ Except.ok true) :
    (handle_repair env s).outcome = Outcome.returns := by
  unfold handle_repair
  split
  · rfl
  · split
    case h_1 success heq =>
      cases success with
      | true => exact absurd heq (hL _ _)
      | false => rfl
    case h_2 => rfl

/-- `handle_open_url` always returns. -/
theorem handle_open_url_returns (env : Env) (s : WebViewUserData)
    (p : Json) : (handle_open_url env s p).outcome = Outcome.returns := by
  unfold handle_open_url
  split <;> try rfl
  all_goals split <;> try rfl
  all_goals split <;> try rfl
  all_goals split <;> rfl

/-- When no launch is accepted by the OS, `handle_json_request` returns. -/
theorem handle_json_request_returns (env : Env) (s : WebViewUserData)
    (request : String) (hL : ∀ p q, env.launch p q ≠ Except.ok true) :
    (handle_json_request env s request).outcome = Outcome.returns := by
  unfold handle_json_request
  split
  · rfl
  · split
    · split
      · unfold handle_login
        split
        · rfl
        · exact start_game_client_returns env s _ hL
      · split
        · exact handle_open_url_returns env s _
        · rfl
    · rfl

/-- C2 counterexample: dispatching `play` (not the `exit` token, and with
no configuration failure involved) terminates the process when the OS
accepts the launch and `exit_on_success` defaults to true. -/
theorem process_exit_counterexample :
    (handle_message envLaunchOk "play" stateEx).outcome = Outcome.exits 0 ∧
    "play" ≠ "exit" := by
  decide

/-- C2 amended: the dispatcher terminates the process only via the explicit
`exit` token or via a successful launch with `exit_on_success` set
(`play`/`setup`/`repair`/`login`); on every failure path — whenever no
launch request is accepted by the OS — every message other than `exit`
returns control to the caller. -/
theorem dispatch_failure_paths_return (env : Env) (msg : String)
    (s : WebViewUserData) (hL : ∀ p q, env.launch p q ≠ Except.ok true)
    (hmsg : msg ≠ "exit") :
    (handle_message env msg s).outcome = Outcome.returns := by
  unfold handle_message
  by_cases h1 : msg = "play"
  · rw [if_pos h1]
    exact start_game_client_returns env s _ hL
  rw [if_neg h1]
  by_cases h2 : msg = "setup"
  · rw [if_pos h2]
    exact handle_setup_returns env s hL
  rw [if_neg h2]
  by_cases h3 : msg = "repair"
  · rw [if_pos h3]
    exact handle_repair_returns env s hL
  rw [if_neg h3]
  rw [if_neg hmsg]
  by_cases h5 : msg = "start_update"
  · rw [if_pos h5]
    unfold handle_start_update
    split <;> rfl
  rw [if_neg h5]
  by_cases h6 : msg = "cancel_update"
  · rw [if_pos h6]
    rfl
  rw [if_neg h6]
  by_cases h7 : msg = "reset_cache"
  · rw [if_pos h7]
    unfold handle_reset_cache
    split <;> try rfl
    all_goals split <;> rfl
  rw [if_neg h7]
  by_cases h8 : msg = "manual_patch"
  · rw [if_pos h8]
    unfold handle_manual_patch
    split <;> try rfl
    all_goals split <;> rfl
  rw [if_neg h8]
  exact handle_json_request_returns env s msg hL

/-- Witness for C2 amended: with every launch rejected by the OS, a `play`
dispatch returns control. -/
theorem dispatch_failure_paths_return_witness :
    (∀ p q, envBase.launch p q ≠ Except.ok true) ∧ "play" ≠ "exit" ∧
    (handle_message envBase "play" stateEx).outcome = Outcome.returns := by
  have hL : ∀ p q, envBase.launch p q ≠ Except.ok true := by
    intro p q h
    exact absurd (Except.ok.inj h) Bool.false_ne_true
  exact ⟨hL, by decide,
    dispatch_failure_paths_return envBase "play" stateEx hL (by decide)⟩

/-- A message outside the fixed vocabulary is dispatched to the JSON
request handler. -/
theorem handle_message_not_token (env : Env) (msg : String)
    (s : WebViewUserData) (hTok : msg ∉ fixedTokens) :
    handle_message env msg s = handle_json_request env s msg := by
  have h1 : msg ≠ "play" := fun e => hTok (by rw [e]; decide)
  have h2 : msg ≠ "setup" := fun e => hTok (by rw [e]; decide)
  have h3 : msg ≠ "repair" := fun e => hTok (by rw [e]; decide)
  have h4 : msg ≠ "exit" := fun e => hTok (by rw [e]; decide)
  have h5 : msg ≠ "start_update" := fun e => hTok (by rw [e]; decide)
  have h6 : msg ≠ "cancel_update" := fun e => hTok (by rw [e]; decide)
  have h7 : msg ≠ "reset_cache" := fun e => hTok (by rw [e]; decide)
  have h8 : msg ≠ "manual_patch" := fun e => hTok (by rw [e]; decide)
  unfold handle_message
  rw [if_neg h1, if_neg h2, if_neg h3, if_neg h4, if_neg h5, if_neg h6,
    if_neg h7, if_neg h8]

/-- C6: a message outside the fixed vocabulary whose JSON parse fails, or
which parses but names an unknown function, logs one error and is dropped:
no handler runs, no command is submitted, nothing is launched, the session
state is unchanged, and the handler returns (no panic, no process exit). -/
theorem unknown_message_dropped (env : Env) (msg : String)
    (s : WebViewUserData) (hTok : msg ∉ fixedTokens) :
    (∀ e, env.parse msg = Except.error e →
      handle_message env msg s =
        { effects := [Effect.log LogLevel.error], state := s,
          outcome := Outcome.returns }) ∧
    (∀ j fname, env.parse msg = Except.ok j →
      jAsStr (jIndex j "function") = some fname →
      fname ≠ "login" → fname ≠ "open_url" →
      handle_message env msg s =
        { effects := [Effect.log LogLevel.error], state := s,
          outcome := Outcome.returns }) := by
  rw [handle_message_not_token env msg s hTok]
  constructor
  · intro e he
    unfold handle_json_request
    rw [he]
  · intro j fname hj hf hne1 hne2
    unfold handle_json_request
    rw [hj]
    simp only [hf, if_neg hne1, if_neg hne2]

/-- Witness for C6: a non-JSON message is dropped with one error log, and a
message naming the unknown function `frobnicate` is dropped with one error
log. -/
theorem unknown_message_dropped_witness :
    "gibberish" ∉ fixedTokens ∧
    handle_message envBase "gibberish" stateEx =
      { effects := [Effect.log LogLevel.error], state := stateEx,
        outcome := Outcome.returns } ∧
    "\x7b\"function\":\"frobnicate\"\x7d" ∉ fixedTokens ∧
    handle_message envUnknownFn "\x7b\"function\":\"frobnicate\"\x7d"
        stateEx =
      { effects := [Effect.log LogLevel.error], state := stateEx,
        outcome := Outcome.returns } := by
  refine ⟨by decide, ?_, by decide, ?_⟩
  · exact (unknown_message_dropped envBase "gibberish" stateEx
      (by decide)).1 "invalid" rfl
  · exact (unknown_message_dropped envUnknownFn
      "\x7b\"function\":\"frobnicate\"\x7d" stateEx (by decide)).2
      unknownFnJson "frobnicate" rfl rfl (by decide) (by decide)

/-- C10: a message outside the fixed vocabulary that parses as JSON but
whose `function` field is absent or not a string is dropped silently: no
handler runs, no effect at all (not even a log), the session state is
unchanged and the handler returns. -/
theorem missing_function_field_silent (env : Env) (msg : String)
    (s : WebViewUserData) (j : Json) (hTok : msg ∉ fixedTokens)
    (hp : env.parse msg = Except.ok j)
    (hf : jAsStr (jIndex j "function") = none) :
    handle_message env msg s =
      { effects := [], state := s, outcome := Outcome.returns } := by
  rw [handle_message_not_token env msg s hTok]
  unfold handle_json_request
  rw [hp]
  simp only [hf]

/-- Witness for C10: the message whose `function` field is the number 3 is
dropped with no effects. -/
theorem missing_function_field_silent_witness :
    "\x7b\"function\":3\x7d" ∉ fixedTokens ∧
    envNumFn.parse "\x7b\"function\":3\x7d" = Except.ok numFnJson ∧
    jAsStr (jIndex numFnJson "function") = none ∧
    handle_message envNumFn "\x7b\"function\":3\x7d" stateEx =
      { effects := [], state := stateEx, outcome := Outcome.returns } := by
  refine ⟨by decide, rfl, rfl, ?_⟩
  exact missing_function_field_silent envNumFn "\x7b\"function\":3\x7d"
    stateEx numFnJson (by decide) rfl rfl

/-- Reduction of `handle_json_request` once serde has produced a value. -/
theorem handle_json_request_parse_ok (env : Env) (s : WebViewUserData)
    (request : String) (j : Json) (hp : env.parse request = Except.ok j) :
    handle_json_request env s request =
      match jAsStr (jIndex j "function") with
      | some function_name =>
        if function_name = "login" then
          handle_login env s (jIndex j "parameters")
        else if function_name = "open_url" then
          handle_open_url env s (jIndex j "parameters")
        else
          { effects := [Effect.log LogLevel.error], state := s,
            outcome := Outcome.returns }
      | none => { effects := [], state := s, outcome := Outcome.returns } := by
  unfold handle_json_request
  rw [hp]

/-- The first effect of `start_game_client` is always the launch of the
configured client path with the given arguments. -/
theorem start_game_client_effects_head (env : Env) (s : WebViewUserData)
    (a : List String) :
    (start_game_client env s a).effects.head? =
      some (Effect.launch s.patcher_config.play.path a) := by
  unfold start_game_client
  split <;> try rfl
  all_goals split <;> try rfl
  all_goals split <;> rfl

/-- C5: a `login` message with login `L` and password `P` invokes the
launcher with path `play.path`, and the first effect of the dispatch is the
launch with the argument list exactly
`["-t:" ++ P, L, "server"] ++ play.arguments`, in that order. -/
theorem login_launch_arguments (env : Env) (s : WebViewUserData)
    (msg : String) (j : Json) (L P : String) (hTok : msg ∉ fixedTokens)
    (hp : env.parse msg = Except.ok j)
    (hf : jAsStr (jIndex j "function") = some "login")
    (hparams : parseLoginParameters (jIndex j "parameters") =
      Except.ok { login := L, password := P }) :
    (handle_message env msg s).effects.head? =
      some (Effect.launch s.patcher_config.play.path
        (["-t:" ++ P, L, "server"] ++ s.patcher_config.play.arguments)) := by
  rw [handle_message_not_token env msg s hTok,
    handle_json_request_parse_ok env s msg j hp, hf]
  show (handle_login env s (jIndex j "parameters")).effects.head? = _
  unfold handle_login
  rw [hparams]
  exact start_game_client_effects_head env s _

/-- Witness for C5: the login message for alice/secret with
`play.arguments = ["-w"]` launches `client.exe` with
`["-t:secret", "alice", "server", "-w"]`. -/
theorem login_launch_arguments_witness :
    loginMsg ∉ fixedTokens ∧
    (handle_message envLogin loginMsg stateEx).effects.head? =
      some (Effect.launch "client.exe"
        ["-t:secret", "alice", "server", "-w"]) := by
  refine ⟨by decide, ?_⟩
  exact login_launch_arguments envLogin stateEx loginMsg loginJson
    "alice" "secret" (by decide) rfl rfl rfl

/-- A single-component file name with no dot gets `.dat` appended. -/
theorem rust_with_extension_dat_no_dot (name : String) (hnz : name ≠ "")
    (hdot : '.' ∉ name.data) :
    rust_with_extension_dat name = name ++ ".dat" := by
  unfold rust_with_extension_dat
  cases hd : name.data with
  | nil => exact absurd (String.ext hd) hnz
  | cons c rest =>
    have hr : dropAfterLastDot rest = rest := by
      unfold dropAfterLastDot
      have hnil : rest.reverse.dropWhile (fun x => x ≠ '.') = [] := by
        rw [List.dropWhile_eq_nil_iff]
        intro x hx
        have hx2 : x ∈ name.data := by
          rw [hd]
          exact List.mem_cons_of_mem _ (List.mem_reverse.mp hx)
        have hne : x ≠ '.' := fun e => hdot (e ▸ hx2)
        simpa using hne
      rw [hnil]
    simp only [rust_file_stem_data, hr]
    congr 1
    exact String.ext (by rw [hd])

/-- C8: `reset_cache` removes the relative path `<identity>.dat` (hence a
file in the working directory); whether the removal succeeds or fails
(file not found), the handler completes, returns control, leaves the
session state unchanged, and performs no other side effect — a failed
removal only adds a warning log. -/
theorem reset_cache_missing_file_ok (env : Env) (s : WebViewUserData)
    (name : String) (hname : env.patcherName = Except.ok name)
    (hnz : name ≠ "") (hdot : '.' ∉ name.data) :
    handle_message env "reset_cache" s =
      { effects :=
          if env.removeOk then [Effect.removeFile (name ++ ".dat")]
          else [Effect.removeFile (name ++ ".dat"),
                Effect.log LogLevel.warn],
        state := s, outcome := Outcome.returns } := by
  have hm : handle_message env "reset_cache" s = handle_reset_cache env s :=
    rfl
  have hr : handle_reset_cache env s =
      if env.removeOk then
        { effects := [Effect.removeFile (rust_with_extension_dat name)],
          state := s, outcome := Outcome.returns }
      else
        { effects := [Effect.removeFile (rust_with_extension_dat name),
                      Effect.log LogLevel.warn],
          state := s, outcome := Outcome.returns } := by
    unfold handle_reset_cache
    rw [hname]
  rw [hm, hr, rust_with_extension_dat_no_dot name hnz hdot]
  cases hro : env.removeOk <;> simp [hro]

/-- Witness for C8: with identity `rpatchur` and the cache file missing
(removal fails), the dispatch attempts to remove `rpatchur.dat`, logs a
warning, and returns with the state unchanged. -/
theorem reset_cache_missing_file_ok_witness :
    envBase.patcherName = Except.ok "rpatchur" ∧
    envBase.removeOk = false ∧
    handle_message envBase "reset_cache" stateEx =
      { effects := [Effect.removeFile "rpatchur.dat",
                    Effect.log LogLevel.warn],
        state := stateEx, outcome := Outcome.returns } := by
  refine ⟨rfl, rfl, ?_⟩
  exact reset_cache_missing_file_ok envBase stateEx "rpatchur" rfl
    (by decide) (by decide)
